import Mathlib

/-!
Shallow embedding of the order lifecycle and payment reconciliation subsystem of the
restaurant web application: the Prisma data model (prisma/migrations/.../migration.sql),
the PayPal webhook handlers (src/app/api/payments/paypal/webhook/route.ts), the
abandoned-order cleanup script (scripts/cleanup-pending-orders.js), the order PATCH
route (src/app/api/orders/[id]/route.ts) and the checkout total computation
(src/app/(customer)/checkout/page.tsx).

Database rows are Lean structures, tables are lists, and each request handler or job is a
pure function from a database state to a new database state plus a response.  A Prisma
`update` on a unique `where` that matches no row throws (error P2025); this is modelled
with `Except Unit`, and a thrown error inside a `$transaction` discards the transaction's
writes, which the model reflects by returning the pre-transaction state to the caller.
Monetary amounts and stock quantities are modelled as integers.
-/

namespace Rest

/-- Prisma enum `OrderStatus` (migration.sql line 2). -/
inductive OrderStatus where
  | PENDING
  | ACCEPTED
  | PREPARING
  | READY
  | OUT_FOR_DELIVERY
  | DELIVERED
  | CANCELLED
  | REJECTED
  deriving DecidableEq, Repr

/-- Prisma enum `PaymentStatus` (migration.sql line 11). -/
inductive PaymentStatus where
  | PENDING
  | COMPLETED
  | FAILED
  | REFUNDED
  deriving DecidableEq, Repr

/-- `Order` row, restricted to the fields the order/payment core reads or writes
(migration.sql lines 166-195). -/
structure Order where
  id : String
  orderNumber : String
  status : OrderStatus
  paymentStatus : PaymentStatus
  paymentIntentId : Option String
  customerId : String
  subtotal : Int
  taxAmount : Int
  serviceFee : Int
  tipAmount : Int
  discountAmount : Int
  deliveryFee : Int
  totalAmount : Int
  createdAt : Int
  deriving DecidableEq, Repr

/-- `OrderItem` row, restricted to the fields the core reads. -/
structure OrderItem where
  orderId : String
  menuItemId : String
  quantity : Int
  deriving DecidableEq, Repr

/-- `MenuItem` row, restricted to its inventory fields. -/
structure MenuItem where
  id : String
  trackInventory : Bool
  stockQuantity : Option Int
  deriving DecidableEq, Repr

/-- `Customer` row, restricted to its aggregate fields. -/
structure Customer where
  id : String
  totalOrders : Int
  totalSpent : Int
  deriving DecidableEq, Repr

/-- `OrderStatusHistory` row (migration.sql lines 211-219). -/
structure HistoryRow where
  orderId : String
  status : OrderStatus
  note : Option String
  createdBy : String
  deriving DecidableEq, Repr

/-- The database state seen by the order/payment core. -/
structure DB where
  orders : List Order
  orderItems : List OrderItem
  menuItems : List MenuItem
  customers : List Customer
  history : List HistoryRow
  deriving DecidableEq, Repr

/-- `order.update with a unique where id` : Prisma update fails (P2025) when no row
matches; otherwise it rewrites the matching row. -/
def updateOrderById (db : DB) (oid : String) (f : Order → Order) : Except Unit DB :=
  if db.orders.any (fun o => o.id == oid) then
    .ok { db with orders := db.orders.map (fun o => if o.id == oid then f o else o) }
  else .error ()

/-- `customer.update with a unique where id` : fails when no row matches. -/
def updateCustomerById (db : DB) (cid : String) (f : Customer → Customer) : Except Unit DB :=
  if db.customers.any (fun c => c.id == cid) then
    .ok { db with customers := db.customers.map (fun c => if c.id == cid then f c else c) }
  else .error ()

/-- `orderItem.findMany where orderId, include menuItem` : the order's line items joined
with their menu-item rows. -/
def joinItems (db : DB) (oid : String) : List (OrderItem × MenuItem) :=
  (db.orderItems.filter (fun it => it.orderId == oid)).filterMap
    (fun it => (db.menuItems.find? (fun m => m.id == it.menuItemId)).map (fun m => (it, m)))

/-- One step of the inventory-restoration loop shared by the refund webhook handler
(part_007 lines 288-297) and the cleanup script (part_001 lines 55-64): when the joined
menu item tracks inventory with a non-null stock quantity, increment the stock of the
row with that menu-item id by the line-item quantity. -/
def restoreStep (ms : List MenuItem) (p : OrderItem × MenuItem) : List MenuItem :=
  if p.2.trackInventory && p.2.stockQuantity.isSome then
    ms.map (fun m =>
      if m.id == p.1.menuItemId then
        { m with stockQuantity := m.stockQuantity.map (fun q => q + p.1.quantity) }
      else m)
  else ms

/-- The full inventory-restoration loop over the joined line items. -/
def restoreInventory (ms : List MenuItem) (pairs : List (OrderItem × MenuItem)) : List MenuItem :=
  pairs.foldl restoreStep ms

/-- `handlePaymentCaptured` (part_007 lines 196-231): in one transaction, unconditionally
set payment status COMPLETED, store the capture id, set order status ACCEPTED, and append
a status-history row.  There is no payment-status check before the write.  A missing
order makes the update throw, rolling the transaction back and rethrowing. -/
def handlePaymentCaptured (db : DB) (captureId : String) (customId : Option String) :
    Except Unit DB :=
  match customId with
  | none => .ok db
  | some cid =>
    if cid.isEmpty then .ok db
    else
      match updateOrderById db cid (fun o =>
        { o with paymentStatus := .COMPLETED, paymentIntentId := some captureId,
                 status := .ACCEPTED }) with
      | .error e => .error e
      | .ok db1 =>
        .ok { db1 with history := db1.history ++
          [{ orderId := cid, status := .ACCEPTED,
             note := some "Payment completed via PayPal webhook", createdBy := "SYSTEM" }] }

/-- `handlePaymentDenied` (part_007 lines 233-251): a single update setting payment
status FAILED; a missing order makes it throw and rethrow. -/
def handlePaymentDenied (db : DB) (customId : Option String) : Except Unit DB :=
  match customId with
  | none => .ok db
  | some cid =>
    if cid.isEmpty then .ok db
    else updateOrderById db cid (fun o => { o with paymentStatus := .FAILED })

/-- `handlePaymentRefunded` (part_007 lines 253-319): in one transaction, read the
order's total, set payment status REFUNDED and order status CANCELLED, append a
status-history row, restore inventory for the order's line items, and decrement the
owning customer's totalSpent (and only totalSpent) by the order total. -/
def handlePaymentRefunded (db : DB) (customId : Option String) : Except Unit DB :=
  match customId with
  | none => .ok db
  | some cid =>
    if cid.isEmpty then .ok db
    else
      let ord0 := db.orders.find? (fun o => o.id == cid)
      match updateOrderById db cid (fun o =>
        { o with paymentStatus := .REFUNDED, status := .CANCELLED }) with
      | .error e => .error e
      | .ok db1 =>
        let db2 : DB := { db1 with history := db1.history ++
          [{ orderId := cid, status := .CANCELLED,
             note := some "Payment refunded via PayPal", createdBy := "SYSTEM" }] }
        let db3 : DB := { db2 with menuItems := restoreInventory db2.menuItems (joinItems db2 cid) }
        match ord0 with
        | some o =>
          .ok { db3 with customers := db3.customers.map (fun c =>
            if db3.orders.any (fun od => od.id == cid && od.customerId == c.id) then
              { c with totalSpent := c.totalSpent - o.totalAmount }
            else c) }
        | none => .ok db3

/-- The parsed fields of a PayPal webhook event that the handler reads:
`event.event_type`, `event.resource.id` and `event.resource.custom_id`. -/
structure PayPalEvent where
  event_type : String
  resource_id : String
  custom_id : Option String
  deriving DecidableEq, Repr

/-- `POST /api/payments/paypal/webhook` (part_007 lines 162-194): the request headers
are read but never used (no signature verification); the event type is dispatched to a
handler; every path, including an internal error, responds 200. -/
def webhookPOST (_headersList : List (String × String)) (db : DB) (ev : PayPalEvent) :
    DB × Nat :=
  let res : Except Unit DB :=
    if ev.event_type == "PAYMENT.CAPTURE.COMPLETED" then
      handlePaymentCaptured db ev.resource_id ev.custom_id
    else if ev.event_type == "PAYMENT.CAPTURE.DENIED" then
      handlePaymentDenied db ev.custom_id
    else if ev.event_type == "PAYMENT.CAPTURE.REFUNDED" then
      handlePaymentRefunded db ev.custom_id
    else .ok db
  match res with
  | .ok db1 => (db1, 200)
  | .error _ => (db, 200)

/-- The cleanup threshold: 15 minutes in milliseconds (part_001 line 11). -/
def sweepThresholdMs : Int := 15 * 60 * 1000

/-- The cleanup script's selection condition (part_001 lines 14-21): fulfillment status
PENDING, payment status PENDING, created strictly before now minus 15 minutes. -/
def staleB (o : Order) (now : Int) : Bool :=
  o.status == .PENDING && (o.paymentStatus == .PENDING && decide (o.createdAt < now - sweepThresholdMs))

/-- What the cleanup script's initial `findMany` captures per abandoned order: the order
row and its line items joined with their menu items (the `include`). -/
structure SweepSnapshot where
  order : Order
  items : List (OrderItem × MenuItem)
  deriving DecidableEq, Repr

/-- The cleanup script's select (part_001 lines 14-30), taken before any per-order
transaction runs. -/
def sweepSelect (db : DB) (now : Int) : List SweepSnapshot :=
  (db.orders.filter (fun o => staleB o now)).map (fun o => { order := o, items := joinItems db o.id })

/-- The note written by the cleanup script (part_001 line 49). -/
def sweepNote : String := "Order cancelled automatically - payment not completed within 15 minutes"

/-- One per-order transaction of the cleanup script (part_001 lines 35-74): set status
CANCELLED keyed only on the order id (no re-check of the current status or payment
status), append a history row, restore inventory from the snapshot's joined items, and
decrement the customer's totalOrders by 1 and totalSpent by the order total.  Any
failure rolls the whole transaction back. -/
def sweepCancelOne (db : DB) (s : SweepSnapshot) : Except Unit DB :=
  match updateOrderById db s.order.id (fun o => { o with status := .CANCELLED }) with
  | .error e => .error e
  | .ok db1 =>
    let db2 : DB := { db1 with history := db1.history ++
      [{ orderId := s.order.id, status := .CANCELLED, note := some sweepNote,
         createdBy := "SYSTEM" }] }
    let db3 : DB := { db2 with menuItems := restoreInventory db2.menuItems s.items }
    updateCustomerById db3 s.order.customerId (fun c =>
      { c with totalOrders := c.totalOrders - 1, totalSpent := c.totalSpent - s.order.totalAmount })

/-- The cleanup script's per-order loop (part_001 lines 34-77).  The loop body is not
wrapped in its own try/catch: the first per-order failure propagates to the script-level
catch (line 80), which logs and ends the run, so the remaining selected orders are not
attempted and earlier committed transactions are kept. -/
def sweepLoop (db : DB) : List SweepSnapshot → DB
  | [] => db
  | s :: rest =>
    match sweepCancelOne db s with
    | .ok db1 => sweepLoop db1 rest
    | .error _ => db

/-- `cleanupPendingOrders` (part_001 lines 7-85): select the abandoned orders, then run
one transaction per selected order. -/
def cleanupRun (db : DB) (now : Int) : DB :=
  sweepLoop db (sweepSelect db now)

/-- Did an `Except`-returning operation commit? -/
def committed : Except Unit DB → Bool
  | .ok _ => true
  | .error _ => false

/-- The authenticated session as the PATCH route reads it: a user id and an optional
role. -/
structure Session where
  userId : String
  role : Option String
  deriving DecidableEq, Repr

/-- The JSON body of a PATCH request: an optional status string and an optional note. -/
structure PatchBody where
  status : Option String
  note : Option String
  deriving DecidableEq, Repr

/-- The response of the PATCH route as the claims observe it: HTTP status, the success
flag, and the error message if any. -/
structure ApiResponse where
  status : Nat
  success : Bool
  error : Option String
  deriving DecidableEq, Repr

/-- The staff roles recognised by the route (route.ts line 110). -/
def staffRoles : List String := ["ADMIN", "KITCHEN", "WAITER"]

/-- The zod enum of `updateStatusSchema` (route.ts lines 13-25). -/
def parseOrderStatus (s : String) : Option OrderStatus :=
  if s == "PENDING" then some .PENDING
  else if s == "ACCEPTED" then some .ACCEPTED
  else if s == "PREPARING" then some .PREPARING
  else if s == "READY" then some .READY
  else if s == "OUT_FOR_DELIVERY" then some .OUT_FOR_DELIVERY
  else if s == "DELIVERED" then some .DELIVERED
  else if s == "CANCELLED" then some .CANCELLED
  else if s == "REJECTED" then some .REJECTED
  else none

/-- The JS falsiness test the route applies to `body.note` (route.ts line 108):
`undefined` and the empty string are both falsy. -/
def isBlankNote : Option String → Bool
  | none => true
  | some s => s.isEmpty

/-- Modelled from the spec: the order service's `updateOrderStatus` is imported by
`PATCH /api/orders/[id]` but its body is not under src/.  Per §4.1 of the spec it fails
with NotFoundError when the order does not exist; otherwise it applies the new status,
appends a history row, and — when the new status is CANCELLED or REJECTED and the
payment was not already reversed (REFUNDED) — restores tracked inventory and reverses
the customer statistics exactly once, all in one atomic unit. -/
def updateOrderStatus (db : DB) (oid : String) (newStatus : OrderStatus)
    (note : Option String) (actor : String) : Option DB :=
  match db.orders.find? (fun o => o.id == oid) with
  | none => none
  | some o =>
    let db1 : DB := { db with orders := db.orders.map (fun od =>
      if od.id == oid then { od with status := newStatus } else od) }
    let db2 : DB := { db1 with history := db1.history ++
      [{ orderId := oid, status := newStatus, note := note, createdBy := actor }] }
    if (newStatus == .CANCELLED || newStatus == .REJECTED) && !(o.paymentStatus == .REFUNDED) then
      let db3 : DB := { db2 with menuItems := restoreInventory db2.menuItems (joinItems db2 oid) }
      some { db3 with customers := db3.customers.map (fun c =>
        if c.id == o.customerId then
          { c with totalOrders := c.totalOrders - 1, totalSpent := c.totalSpent - o.totalAmount }
        else c) }
    else some db2

/-- `PATCH /api/orders/[id]` (route.ts lines 90-262).  A body whose status is
`CANCELLED` with a blank note is treated as a customer cancellation: it requires the
caller to own the order, rejects with 400 when the order is not PENDING or ACCEPTED,
and otherwise cancels through `updateOrderStatus`.  Any other body is a staff update:
staff role required, the body is validated, and the status applied. -/
def patchOrder (db : DB) (session : Option Session) (oid : String) (body : PatchBody) :
    DB × ApiResponse :=
  match session with
  | none => (db, { status := 401, success := false, error := some "Unauthorized" })
  | some sess =>
    let isCustomerCancellation := body.status == some "CANCELLED" && isBlankNote body.note
    let isStaff := match sess.role with
      | some r => staffRoles.contains r
      | none => false
    if isCustomerCancellation then
      match db.orders.find? (fun o => o.id == oid) with
      | none => (db, { status := 404, success := false, error := some "Order not found" })
      | some o =>
        if o.customerId != sess.userId then
          (db, { status := 403, success := false, error := some "You can only cancel your own orders" })
        else if !(o.status == .PENDING || o.status == .ACCEPTED) then
          (db, { status := 400, success := false,
                 error := some "Order cannot be cancelled. It is already being prepared or completed." })
        else
          match updateOrderStatus db oid .CANCELLED (some "Cancelled by customer")
              (if sess.userId.isEmpty then "CUSTOMER" else sess.userId) with
          | some db1 => (db1, { status := 200, success := true, error := none })
          | none => (db, { status := 400, success := false,
                           error := some "Failed to update order status" })
    else if !isStaff then
      (db, { status := 403, success := false,
             error := some "Forbidden: Only staff can update order status" })
    else
      match db.orders.find? (fun o => o.id == oid) with
      | none => (db, { status := 404, success := false, error := some "Order not found" })
      | some _ =>
        match body.status with
        | none => (db, { status := 400, success := false, error := some "Validation failed" })
        | some sstr =>
          match parseOrderStatus sstr with
          | none => (db, { status := 400, success := false, error := some "Validation failed" })
          | some st =>
            match updateOrderStatus db oid st body.note
                (if sess.userId.isEmpty then "SYSTEM" else sess.userId) with
            | some db1 => (db1, { status := 200, success := true, error := none })
            | none => (db, { status := 400, success := false,
                             error := some "Failed to update order status" })

/-- The checkout page's total (page.tsx line 293):
`totalAmount = subtotal + taxAmount + serviceFee + deliveryFee + tipAmount`. -/
def checkoutTotalAmount (subtotal taxAmount serviceFee deliveryFee tipAmount : Int) : Int :=
  subtotal + taxAmount + serviceFee + deliveryFee + tipAmount

/-- The order the checkout page submits (page.tsx lines 475-507): monetary breakdown as
computed on the page, `discountAmount: 0` (line 491), created PENDING with payment
PENDING. -/
def mkCheckoutOrder (id orderNumber customerId : String) (createdAt : Int)
    (subtotal taxAmount serviceFee deliveryFee tipAmount : Int) : Order :=
  { id := id, orderNumber := orderNumber, status := .PENDING, paymentStatus := .PENDING,
    paymentIntentId := none, customerId := customerId, subtotal := subtotal,
    taxAmount := taxAmount, serviceFee := serviceFee, tipAmount := tipAmount,
    discountAmount := 0, deliveryFee := deliveryFee,
    totalAmount := checkoutTotalAmount subtotal taxAmount serviceFee deliveryFee tipAmount,
    createdAt := createdAt }

/-- The monetary-breakdown invariant of §8 of the spec. -/
def moneyReconciles (o : Order) : Prop :=
  o.totalAmount = o.subtotal + o.taxAmount + o.serviceFee + o.tipAmount + o.deliveryFee - o.discountAmount

instance (o : Order) : Decidable (moneyReconciles o) := by
  unfold moneyReconciles
  infer_instance

/-- Every order in the database reconciles. -/
def MoneyOK (db : DB) : Prop :=
  ∀ o ∈ db.orders, moneyReconciles o

instance (db : DB) : Decidable (MoneyOK db) := by
  unfold MoneyOK
  infer_instance

/-- The state-mutating entry points of the core. -/
inductive Op where
  | webhook (headersList : List (String × String)) (ev : PayPalEvent)
  | patch (session : Option Session) (oid : String) (body : PatchBody)
  | sweep (now : Int)
  deriving Repr

/-- Run one entry point, keeping the database it leaves behind. -/
def applyOp (db : DB) : Op → DB
  | .webhook h ev => (webhookPOST h db ev).1
  | .patch s oid b => (patchOrder db s oid b).1
  | .sweep now => cleanupRun db now

/-- The total quantity the inventory-restoration loop adds to the menu item with id
`mid`: the sum of the quantities of the joined line items that reference it and whose
joined menu item tracks inventory with a non-null stock. -/
def restoredQty (pairs : List (OrderItem × MenuItem)) (mid : String) : Int :=
  ((pairs.filter (fun p => p.1.menuItemId == mid && (p.2.trackInventory && p.2.stockQuantity.isSome))).map
    (fun p => p.1.quantity)).sum

/-- The total quantity a full sweeper run adds to the menu item with id `mid`. -/
def totalRestored (snaps : List SweepSnapshot) (mid : String) : Int :=
  (snaps.map (fun s => restoredQty s.items mid)).sum

/-- How many selected orders of a sweeper run belong to customer `cid`. -/
def sweptCount (snaps : List SweepSnapshot) (cid : String) : Int :=
  ((snaps.filter (fun s => s.order.customerId == cid)).length : Int)

/-- The summed totals of the selected orders of a sweeper run belonging to customer
`cid`. -/
def sweptSpent (snaps : List SweepSnapshot) (cid : String) : Int :=
  ((snaps.filter (fun s => s.order.customerId == cid)).map (fun s => s.order.totalAmount)).sum

/-- A concrete order used to evaluate the theorems: PENDING with PENDING payment,
created at time 0, total 125 = 100 + 10 + 5 + 3 + 7 - 0. -/
def wOrder : Order :=
  { id := "o1", orderNumber := "N1", status := .PENDING, paymentStatus := .PENDING,
    paymentIntentId := none, customerId := "c1", subtotal := 100, taxAmount := 10,
    serviceFee := 5, tipAmount := 3, discountAmount := 0, deliveryFee := 7,
    totalAmount := 125, createdAt := 0 }

/-- A concrete database: one pending order with one line item of quantity 2 on a
tracked menu item with stock 5, owned by a customer with 3 orders and 500 spent. -/
def wDB : DB :=
  { orders := [wOrder],
    orderItems := [{ orderId := "o1", menuItemId := "m1", quantity := 2 }],
    menuItems := [{ id := "m1", trackInventory := true, stockQuantity := some 5 }],
    customers := [{ id := "c1", totalOrders := 3, totalSpent := 500 }],
    history := [] }

/-- A concrete capture event for `wOrder`. -/
def wEvCap : PayPalEvent :=
  { event_type := "PAYMENT.CAPTURE.COMPLETED", resource_id := "cap1", custom_id := some "o1" }

/-- A second pending order, owned by customer c2. -/
def wOrder2 : Order :=
  { wOrder with id := "o2", orderNumber := "N2", customerId := "c2" }

/-- A database for the partial-failure run: two abandoned orders selected in the order
o1, o2; o1's customer row "c1" is absent, so o1's per-order transaction fails at the
customer update, while o2's would succeed. -/
def wDB7 : DB :=
  { orders := [wOrder, wOrder2],
    orderItems := [],
    menuItems := [],
    customers := [{ id := "c2", totalOrders := 1, totalSpent := 125 }],
    history := [] }

/-! Helper lemmas shared by the claim theorems. -/

lemma any_map_of_pres {α : Type} (l : List α) (g : α → α) (p : α → Bool)
    (hg : ∀ a, p (g a) = p a) : (l.map g).any p = l.any p := by
  induction l with
  | nil => rfl
  | cons a t ih => simp [List.any_cons, hg, ih]

lemma menuItem_incr_zero (m : MenuItem) :
    { m with stockQuantity := m.stockQuantity.map (fun q => q + (0 : Int)) } = m := by
  cases m with
  | mk i t s => cases s <;> simp

lemma restoredQty_nil (mid : String) : restoredQty [] mid = 0 := rfl

lemma restoredQty_cons (p : OrderItem × MenuItem) (rest : List (OrderItem × MenuItem))
    (mid : String) :
    restoredQty (p :: rest) mid =
      (if p.1.menuItemId == mid && (p.2.trackInventory && p.2.stockQuantity.isSome) then
        p.1.quantity else 0) + restoredQty rest mid := by
  unfold restoredQty
  rw [List.filter_cons]
  split
  · simp
  · simp

/-- The inventory-restoration loop increments every menu-item row by the total restored
quantity for its id and changes nothing else. -/
lemma restoreInventory_eq (pairs : List (OrderItem × MenuItem)) : ∀ ms : List MenuItem,
    restoreInventory ms pairs =
      ms.map (fun m =>
        { m with stockQuantity := m.stockQuantity.map (fun q => q + restoredQty pairs m.id) }) := by
  induction pairs with
  | nil =>
    intro ms
    have h1 : ∀ m ∈ ms,
        { m with stockQuantity := m.stockQuantity.map (fun q => q + restoredQty [] m.id) } = m := by
      intro m _
      rw [restoredQty_nil]
      exact menuItem_incr_zero m
    calc restoreInventory ms [] = ms := rfl
      _ = ms.map id := (List.map_id ms).symm
      _ = ms.map (fun m =>
            { m with stockQuantity := m.stockQuantity.map (fun q => q + restoredQty [] m.id) }) :=
          (List.map_congr_left (fun m hm => h1 m hm)).symm
  | cons p rest ih =>
    intro ms
    have hstep : restoreInventory ms (p :: rest) = restoreInventory (restoreStep ms p) rest := rfl
    rw [hstep, ih]
    unfold restoreStep
    by_cases hc : (p.2.trackInventory && p.2.stockQuantity.isSome) = true
    · rw [if_pos hc, List.map_map]
      apply List.map_congr_left
      intro m _
      by_cases hid : m.id = p.1.menuItemId
      · have hb : (m.id == p.1.menuItemId) = true := beq_iff_eq.mpr hid
        have hb2 : (p.1.menuItemId == m.id) = true := beq_iff_eq.mpr hid.symm
        simp only [Function.comp, hb, if_true, restoredQty_cons, hb2, hc, Bool.true_and]
        cases m with
        | mk i t s =>
          cases s <;> simp [Option.map_map, Function.comp, Int.add_assoc]
      · have hb : (m.id == p.1.menuItemId) = false := beq_eq_false_iff_ne.mpr hid
        have hb2 : (p.1.menuItemId == m.id) = false :=
          beq_eq_false_iff_ne.mpr (fun h => hid h.symm)
        simp only [Function.comp, hb, Bool.false_eq_true, if_false, restoredQty_cons, hb2,
          Bool.false_and, Int.zero_add]
    · rw [if_neg hc]
      apply List.map_congr_left
      intro m _
      have hb : (p.1.menuItemId == m.id && (p.2.trackInventory && p.2.stockQuantity.isSome)) = false := by
        cases hcc : (p.1.menuItemId == m.id) <;> simp [hcc, hc]
      rw [restoredQty_cons, hb]
      simp

/-- C10: the PayPal webhook endpoint reads the request headers but never uses them:
state and response are determined by the parsed body alone, so two requests with the
same body behave identically whatever their headers (no signature verification). -/
theorem webhook_ignores_headers (h1 h2 : List (String × String)) (db : DB) (ev : PayPalEvent) :
    webhookPOST h1 db ev = webhookPOST h2 db ev := rfl

lemma any_eq_false_of_nomatch (db : DB) (cid : String)
    (h : ∀ o ∈ db.orders, some o.id ≠ some cid) :
    db.orders.any (fun o => o.id == cid) = false := by
  apply List.any_eq_false.mpr
  intro o ho
  have hne := h o ho
  simp only [ne_eq, Option.some.injEq] at hne
  simp [hne]

lemma handlePaymentCaptured_nomatch (db : DB) (capId : String) (customId : Option String)
    (h : ∀ o ∈ db.orders, some o.id ≠ customId) :
    handlePaymentCaptured db capId customId = .ok db ∨
      handlePaymentCaptured db capId customId = .error () := by
  cases customId with
  | none => left; rfl
  | some cid =>
    by_cases hemp : cid.isEmpty = true
    · left
      simp [handlePaymentCaptured, hemp]
    · right
      have hfalse := any_eq_false_of_nomatch db cid (by intro o ho; exact h o ho)
      simp [handlePaymentCaptured, hemp, updateOrderById, hfalse]

lemma handlePaymentDenied_nomatch (db : DB) (customId : Option String)
    (h : ∀ o ∈ db.orders, some o.id ≠ customId) :
    handlePaymentDenied db customId = .ok db ∨ handlePaymentDenied db customId = .error () := by
  cases customId with
  | none => left; rfl
  | some cid =>
    by_cases hemp : cid.isEmpty = true
    · left
      simp [handlePaymentDenied, hemp]
    · right
      have hfalse := any_eq_false_of_nomatch db cid (by intro o ho; exact h o ho)
      simp [handlePaymentDenied, hemp, updateOrderById, hfalse]

lemma handlePaymentRefunded_nomatch (db : DB) (customId : Option String)
    (h : ∀ o ∈ db.orders, some o.id ≠ customId) :
    handlePaymentRefunded db customId = .ok db ∨ handlePaymentRefunded db customId = .error () := by
  cases customId with
  | none => left; rfl
  | some cid =>
    by_cases hemp : cid.isEmpty = true
    · left
      simp [handlePaymentRefunded, hemp]
    · right
      have hfalse := any_eq_false_of_nomatch db cid (by intro o ho; exact h o ho)
      simp [handlePaymentRefunded, hemp, updateOrderById, hfalse]

/-- C4: a webhook delivery (of any event type, in particular captured, denied or
refunded) whose correlation id matches no existing order responds 200 and leaves the
whole database unchanged. -/
theorem webhook_unknown_order_noop (hs : List (String × String)) (db : DB) (ev : PayPalEvent)
    (hmiss : ∀ o ∈ db.orders, some o.id ≠ ev.custom_id) :
    webhookPOST hs db ev = (db, 200) := by
  simp only [webhookPOST]
  by_cases h1 : (ev.event_type == "PAYMENT.CAPTURE.COMPLETED") = true
  · rw [if_pos h1]
    rcases handlePaymentCaptured_nomatch db ev.resource_id ev.custom_id hmiss with h | h <;>
      rw [h]
  · rw [if_neg h1]
    by_cases h2 : (ev.event_type == "PAYMENT.CAPTURE.DENIED") = true
    · rw [if_pos h2]
      rcases handlePaymentDenied_nomatch db ev.custom_id hmiss with h | h <;> rw [h]
    · rw [if_neg h2]
      by_cases h3 : (ev.event_type == "PAYMENT.CAPTURE.REFUNDED") = true
      · rw [if_pos h3]
        rcases handlePaymentRefunded_nomatch db ev.custom_id hmiss with h | h <;> rw [h]
      · rw [if_neg h3]

/-- C4 witness: the capture event for an order id absent from the database is a no-op
answered 200. -/
theorem webhook_unknown_order_noop_witness :
    webhookPOST [] wDB { event_type := "PAYMENT.CAPTURE.COMPLETED", resource_id := "cap9",
                         custom_id := some "nope" } = (wDB, 200) :=
  webhook_unknown_order_noop [] wDB _ (by decide)

/-- C9: denied-payment reconciliation on an existing order sets that order's payment
status to FAILED and changes nothing else: no other order field, no other order, and no
menu item, customer or history row is touched. -/
theorem denied_sets_failed_only (db : DB) (cid : String) (hne : cid.isEmpty = false)
    (h : db.orders.any (fun o => o.id == cid) = true) :
    handlePaymentDenied db (some cid) =
      .ok { db with orders := db.orders.map (fun o =>
        if o.id == cid then { o with paymentStatus := .FAILED } else o) } := by
  simp [handlePaymentDenied, hne, updateOrderById, h]

/-- C9 witness: the denied handler evaluated on the concrete database. -/
theorem denied_sets_failed_only_witness :
    handlePaymentDenied wDB (some "o1") =
      .ok { wDB with orders := wDB.orders.map (fun o =>
        if o.id == "o1" then { o with paymentStatus := .FAILED } else o) } :=
  denied_sets_failed_only wDB "o1" (by decide) (by decide)

/-- C1 counterexample: delivering the capture webhook twice for the same order id and
transaction id does not produce the same end state as delivering it once — the second
delivery appends a second status-history row (two rows instead of one). -/
theorem captured_twice_not_noop :
    ((webhookPOST [] (webhookPOST [] wDB wEvCap).1 wEvCap).1.history.length = 2 ∧
      (webhookPOST [] wDB wEvCap).1.history.length = 1) ∧
    (webhookPOST [] (webhookPOST [] wDB wEvCap).1 wEvCap).1 ≠ (webhookPOST [] wDB wEvCap).1 := by
  exact ⟨⟨by decide, by decide⟩, by decide⟩

/-- C1 (amended): a duplicate capture delivery for the same order id and transaction id
returns success and leaves every order row (payment status COMPLETED, status ACCEPTED,
stored capture id), the line items, the menu items and the customers exactly as after
the first delivery; but the handler performs no payment-status check, so it is not a
no-op: each delivery appends one more status-history row. -/
theorem captured_duplicate_delivery (db : DB) (capId cid : String)
    (hne : cid.isEmpty = false) (h : db.orders.any (fun o => o.id == cid) = true) :
    ∃ db1, handlePaymentCaptured db capId (some cid) = .ok db1 ∧
      handlePaymentCaptured db1 capId (some cid) =
        .ok { db1 with history := db1.history ++
          [{ orderId := cid, status := .ACCEPTED,
             note := some "Payment completed via PayPal webhook", createdBy := "SYSTEM" }] } := by
  refine ⟨{ db with
      orders := db.orders.map (fun o =>
        if o.id == cid then
          { o with paymentStatus := .COMPLETED, paymentIntentId := some capId,
                   status := .ACCEPTED }
        else o),
      history := db.history ++
        [{ orderId := cid, status := .ACCEPTED,
           note := some "Payment completed via PayPal webhook", createdBy := "SYSTEM" }] },
    ?_, ?_⟩
  · simp [handlePaymentCaptured, hne, updateOrderById, h]
  · have hany : ((db.orders.map (fun o =>
        if o.id == cid then
          { o with paymentStatus := PaymentStatus.COMPLETED, paymentIntentId := some capId,
                   status := OrderStatus.ACCEPTED }
        else o)).any (fun o => o.id == cid)) = true := by
      rw [any_map_of_pres]
      · exact h
      · intro o
        by_cases hh : (o.id == cid) = true <;> simp [hh]
    have hidem : (db.orders.map (fun o =>
        if o.id == cid then
          { o with paymentStatus := PaymentStatus.COMPLETED, paymentIntentId := some capId,
                   status := OrderStatus.ACCEPTED }
        else o)).map (fun o =>
        if o.id == cid then
          { o with paymentStatus := PaymentStatus.COMPLETED, paymentIntentId := some capId,
                   status := OrderStatus.ACCEPTED }
        else o) = db.orders.map (fun o =>
        if o.id == cid then
          { o with paymentStatus := PaymentStatus.COMPLETED, paymentIntentId := some capId,
                   status := OrderStatus.ACCEPTED }
        else o) := by
      rw [List.map_map]
      apply List.map_congr_left
      intro o _
      by_cases hh : (o.id == cid) = true <;> simp [Function.comp, hh]
    simp only [handlePaymentCaptured, hne, Bool.false_eq_true, if_false, updateOrderById, hany,
      if_true, hidem]

/-- C1 amended witness: the duplicate capture delivery evaluated on the concrete
database. -/
theorem captured_duplicate_delivery_witness :
    ∃ db1, handlePaymentCaptured wDB "cap1" (some "o1") = .ok db1 ∧
      handlePaymentCaptured db1 "cap1" (some "o1") =
        .ok { db1 with history := db1.history ++
          [{ orderId := "o1", status := .ACCEPTED,
             note := some "Payment completed via PayPal webhook", createdBy := "SYSTEM" }] } :=
  captured_duplicate_delivery wDB "cap1" "o1" (by decide) (by decide)

/-- C2: the sweeper's cancellation write is keyed only on the order id, with no re-check
of the current statuses: after the sweeper selects the stale PENDING/PENDING order and a
capture webhook then commits (ACCEPTED, payment COMPLETED), the sweeper's per-order
transaction still cancels it, reaching the forbidden CANCELLED + COMPLETED state. -/
theorem sweeper_capture_race_cancels_paid_order :
    (sweepLoop (webhookPOST [] wDB wEvCap).1 (sweepSelect wDB 1000000)).orders.map
        (fun o => (o.status, o.paymentStatus)) =
      [(OrderStatus.CANCELLED, PaymentStatus.COMPLETED)] := by
  decide

/-- C7 counterexample: a run on a database with two selected abandoned orders, where the
first order's per-order transaction fails (its customer row is missing), ends without
attempting the second order — the database is completely unchanged even though the
second order's transaction would have committed had it been attempted. -/
theorem sweeper_abort_on_failure_cx :
    cleanupRun wDB7 1000000 = wDB7 ∧
    (sweepSelect wDB7 1000000).map (fun s => s.order.id) = ["o1", "o2"] ∧
    committed (sweepCancelOne wDB7 { order := wOrder2, items := [] }) = true := by
  exact ⟨by decide, by decide, by decide⟩

/-- C7 (amended): the sweeper does not tolerate per-order failure: the first failing
per-order transaction ends the run (the error is caught and logged at run level), the
database keeps only what was committed before the failure, and the remaining selected
orders are not attempted in that run. -/
theorem sweeper_failure_aborts_batch (db : DB) (s : SweepSnapshot)
    (rest : List SweepSnapshot) (h : sweepCancelOne db s = .error ()) :
    sweepLoop db (s :: rest) = db := by
  simp [sweepLoop, h]

/-- C7 amended witness: the failing first order aborts the concrete two-order batch. -/
theorem sweeper_failure_aborts_batch_witness :
    sweepLoop wDB7 ({ order := wOrder, items := [] } :: [{ order := wOrder2, items := [] }]) = wDB7 :=
  sweeper_failure_aborts_batch wDB7 { order := wOrder, items := [] }
    [{ order := wOrder2, items := [] }] (by rfl)

/-- C3: refund reconciliation on an existing order atomically sets payment status
REFUNDED and order status CANCELLED, appends exactly one history row, increments each
menu item's stock by the summed quantity of the order's line items that reference it
and track inventory with non-null stock, and decreases the owning customer's totalSpent
by the order total while leaving totalOrders and everything else unchanged. -/
theorem refunded_reconciliation (db : DB) (cid : String) (o0 : Order)
    (hne : cid.isEmpty = false)
    (hfind : db.orders.find? (fun o => o.id == cid) = some o0) :
    handlePaymentRefunded db (some cid) =
      .ok { orders := db.orders.map (fun o =>
              if o.id == cid then { o with paymentStatus := .REFUNDED, status := .CANCELLED }
              else o),
            orderItems := db.orderItems,
            menuItems := db.menuItems.map (fun m =>
              { m with stockQuantity := m.stockQuantity.map (fun q =>
                  q + restoredQty (joinItems db cid) m.id) }),
            customers := db.customers.map (fun c =>
              if db.orders.any (fun od => od.id == cid && od.customerId == c.id) then
                { c with totalSpent := c.totalSpent - o0.totalAmount }
              else c),
            history := db.history ++
              [{ orderId := cid, status := .CANCELLED,
                 note := some "Payment refunded via PayPal", createdBy := "SYSTEM" }] } := by
  have hmem : o0 ∈ db.orders := List.mem_of_find?_eq_some hfind
  have hp : (o0.id == cid) = true := by
    have h2 := List.find?_some hfind
    exact h2
  have hany : db.orders.any (fun o => o.id == cid) = true :=
    List.any_eq_true.mpr ⟨o0, hmem, hp⟩
  simp only [handlePaymentRefunded, hne, Bool.false_eq_true, if_false, hfind,
    updateOrderById, hany, if_true, Except.ok.injEq]
  congr 1
  · exact restoreInventory_eq (joinItems db cid) db.menuItems
  · apply List.map_congr_left
    intro c _
    have hg : ∀ o : Order,
        ((fun od => od.id == cid && od.customerId == c.id)
          ((fun o => if o.id == cid then
              { o with paymentStatus := PaymentStatus.REFUNDED,
                       status := OrderStatus.CANCELLED }
            else o) o)) =
        ((fun od => od.id == cid && od.customerId == c.id) o) := by
      intro o
      by_cases hh : (o.id == cid) = true <;> simp [hh]
    rw [any_map_of_pres db.orders
      (fun o => if o.id == cid then
        { o with paymentStatus := PaymentStatus.REFUNDED, status := OrderStatus.CANCELLED }
      else o)
      (fun od => od.id == cid && od.customerId == c.id) hg]

/-- C3 witness: the refund handler evaluated on the concrete database. -/
theorem refunded_reconciliation_witness :
    handlePaymentRefunded wDB (some "o1") =
      .ok { orders := wDB.orders.map (fun o =>
              if o.id == "o1" then { o with paymentStatus := .REFUNDED, status := .CANCELLED }
              else o),
            orderItems := wDB.orderItems,
            menuItems := wDB.menuItems.map (fun m =>
              { m with stockQuantity := m.stockQuantity.map (fun q =>
                  q + restoredQty (joinItems wDB "o1") m.id) }),
            customers := wDB.customers.map (fun c =>
              if wDB.orders.any (fun od => od.id == "o1" && od.customerId == c.id) then
                { c with totalSpent := c.totalSpent - wOrder.totalAmount }
              else c),
            history := wDB.history ++
              [{ orderId := "o1", status := .CANCELLED,
                 note := some "Payment refunded via PayPal", createdBy := "SYSTEM" }] } :=
  refunded_reconciliation wDB "o1" wOrder (by decide) (by decide)

/-- `updateOrderStatus` on a found order always succeeds, and its orders table is the
original one with the new status written on the matching row. -/
lemma updateOrderStatus_orders (db : DB) (oid : String) (st : OrderStatus)
    (note : Option String) (actor : String) (o : Order)
    (hfind : db.orders.find? (fun x => x.id == oid) = some o) :
    ∃ db1, updateOrderStatus db oid st note actor = some db1 ∧
      db1.orders = db.orders.map (fun x => if x.id == oid then { x with status := st } else x) := by
  simp only [updateOrderStatus, hfind]
  by_cases hc : ((st == OrderStatus.CANCELLED || st == OrderStatus.REJECTED) &&
      !(o.paymentStatus == PaymentStatus.REFUNDED)) = true
  · rw [if_pos hc]
    exact ⟨_, rfl, rfl⟩
  · rw [if_neg hc]
    exact ⟨_, rfl, rfl⟩

/-- C5: a customer cancellation request (body status CANCELLED with a blank note) on the
caller's own order succeeds exactly while the order is PENDING or ACCEPTED — the order
row is then set to CANCELLED — and for any other status (PREPARING or later) it fails
with a 400 response carrying the already-being-prepared message and leaves the whole
database untouched. -/
theorem customer_cancellation_gate (db : DB) (sess : Session) (oid : String)
    (body : PatchBody) (o : Order)
    (hreq : body.status = some "CANCELLED") (hnote : isBlankNote body.note = true)
    (hfind : db.orders.find? (fun x => x.id == oid) = some o)
    (hown : o.customerId = sess.userId) :
    ((o.status = .PENDING ∨ o.status = .ACCEPTED) →
      ∃ db1, patchOrder db (some sess) oid body =
          (db1, { status := 200, success := true, error := none }) ∧
        db1.orders = db.orders.map (fun x =>
          if x.id == oid then { x with status := .CANCELLED } else x)) ∧
    (¬(o.status = .PENDING ∨ o.status = .ACCEPTED) →
      patchOrder db (some sess) oid body =
        (db, { status := 400, success := false,
               error := some "Order cannot be cancelled. It is already being prepared or completed." })) := by
  have hcc : (body.status == some "CANCELLED" && isBlankNote body.note) = true := by
    simp [hreq, hnote]
  have hbne : (o.customerId != sess.userId) = false := by
    simp [hown]
  constructor
  · intro hst
    have hgate : (!(o.status == OrderStatus.PENDING || o.status == OrderStatus.ACCEPTED)) = false := by
      rcases hst with h | h <;> simp [h]
    obtain ⟨db1, hu, ho1⟩ := updateOrderStatus_orders db oid .CANCELLED
      (some "Cancelled by customer") (if sess.userId.isEmpty then "CUSTOMER" else sess.userId)
      o hfind
    refine ⟨db1, ?_, ho1⟩
    simp only [patchOrder, hcc, if_true, hfind, hbne, Bool.false_eq_true, if_false, hgate,
      Bool.not_false, hu]
  · intro hst
    have h1 : o.status ≠ OrderStatus.PENDING := fun h => hst (Or.inl h)
    have h2 : o.status ≠ OrderStatus.ACCEPTED := fun h => hst (Or.inr h)
    have hgate : (!(o.status == OrderStatus.PENDING || o.status == OrderStatus.ACCEPTED)) = true := by
      simp [h1, h2]
    simp only [patchOrder, hcc, if_true, hfind, hbne, Bool.false_eq_true, if_false, hgate]

/-- C5 witness: the gate evaluated on a concrete PREPARING order (rejected, database
unchanged) and on the concrete PENDING order (cancellation succeeds). -/
theorem customer_cancellation_gate_witness :
    (patchOrder { wDB with orders := [{ wOrder with status := .PREPARING }] }
        (some { userId := "c1", role := none }) "o1"
        { status := some "CANCELLED", note := none } =
      ({ wDB with orders := [{ wOrder with status := .PREPARING }] },
        { status := 400, success := false,
          error := some "Order cannot be cancelled. It is already being prepared or completed." })) ∧
    (∃ db1, patchOrder wDB (some { userId := "c1", role := none }) "o1"
        { status := some "CANCELLED", note := none } =
          (db1, { status := 200, success := true, error := none }) ∧
      db1.orders = wDB.orders.map (fun x =>
        if x.id == "o1" then { x with status := .CANCELLED } else x)) :=
  ⟨(customer_cancellation_gate { wDB with orders := [{ wOrder with status := .PREPARING }] }
      { userId := "c1", role := none } "o1" { status := some "CANCELLED", note := none }
      { wOrder with status := .PREPARING } rfl (by decide) (by decide) rfl).2 (by decide),
   (customer_cancellation_gate wDB { userId := "c1", role := none } "o1"
      { status := some "CANCELLED", note := none } wOrder rfl (by decide) (by decide) rfl).1
      (Or.inl rfl)⟩

lemma moneyOK_map (l : List Order) (g : Order → Order)
    (hg : ∀ o, moneyReconciles o → moneyReconciles (g o))
    (h : ∀ o ∈ l, moneyReconciles o) : ∀ o ∈ l.map g, moneyReconciles o := by
  intro o ho
  rcases List.mem_map.mp ho with ⟨a, ha, rfl⟩
  exact hg a (h a ha)

lemma moneyOK_updateOrderById (db : DB) (oid : String) (f : Order → Order) (db' : DB)
    (heq : updateOrderById db oid f = .ok db')
    (hf : ∀ o, moneyReconciles o → moneyReconciles (f o))
    (h : MoneyOK db) : MoneyOK db' := by
  unfold updateOrderById at heq
  by_cases hc : (db.orders.any (fun o => o.id == oid)) = true
  · rw [if_pos hc] at heq
    cases heq
    exact moneyOK_map db.orders _ (fun o hm => by
      by_cases hh : (o.id == oid) = true
      · rw [if_pos hh]; exact hf o hm
      · rw [if_neg hh]; exact hm) h
  · rw [if_neg hc] at heq
    exact Except.noConfusion heq

lemma moneyOK_updateCustomerById (db : DB) (cid : String) (f : Customer → Customer) (db' : DB)
    (heq : updateCustomerById db cid f = .ok db') (h : MoneyOK db) : MoneyOK db' := by
  unfold updateCustomerById at heq
  by_cases hc : (db.customers.any (fun c => c.id == cid)) = true
  · rw [if_pos hc] at heq
    cases heq
    exact h
  · rw [if_neg hc] at heq
    exact Except.noConfusion heq

lemma moneyOK_captured (db db' : DB) (capId : String) (customId : Option String)
    (heq : handlePaymentCaptured db capId customId = .ok db') (h : MoneyOK db) : MoneyOK db' := by
  cases customId with
  | none =>
    simp only [handlePaymentCaptured] at heq
    cases heq
    exact h
  | some cid =>
    simp only [handlePaymentCaptured] at heq
    by_cases hemp : cid.isEmpty = true
    · rw [if_pos hemp] at heq
      cases heq
      exact h
    · rw [if_neg hemp] at heq
      cases hupd : updateOrderById db cid (fun o =>
          { o with paymentStatus := .COMPLETED, paymentIntentId := some capId,
                   status := .ACCEPTED }) with
      | error e =>
        rw [hupd] at heq
        exact Except.noConfusion heq
      | ok db1 =>
        rw [hupd] at heq
        cases heq
        exact moneyOK_updateOrderById db cid _ db1 hupd (fun o hm => hm) h

lemma moneyOK_denied (db db' : DB) (customId : Option String)
    (heq : handlePaymentDenied db customId = .ok db') (h : MoneyOK db) : MoneyOK db' := by
  cases customId with
  | none =>
    simp only [handlePaymentDenied] at heq
    cases heq
    exact h
  | some cid =>
    simp only [handlePaymentDenied] at heq
    by_cases hemp : cid.isEmpty = true
    · rw [if_pos hemp] at heq
      cases heq
      exact h
    · rw [if_neg hemp] at heq
      exact moneyOK_updateOrderById db cid _ db' heq (fun o hm => hm) h

lemma moneyOK_refunded (db db' : DB) (customId : Option String)
    (heq : handlePaymentRefunded db customId = .ok db') (h : MoneyOK db) : MoneyOK db' := by
  cases customId with
  | none =>
    simp only [handlePaymentRefunded] at heq
    cases heq
    exact h
  | some cid =>
    simp only [handlePaymentRefunded] at heq
    by_cases hemp : cid.isEmpty = true
    · rw [if_pos hemp] at heq
      cases heq
      exact h
    · rw [if_neg hemp] at heq
      cases hupd : updateOrderById db cid (fun o =>
          { o with paymentStatus := .REFUNDED, status := .CANCELLED }) with
      | error e =>
        rw [hupd] at heq
        exact Except.noConfusion heq
      | ok db1 =>
        rw [hupd] at heq
        have h1 : MoneyOK db1 := moneyOK_updateOrderById db cid _ db1 hupd (fun o hm => hm) h
        cases hord : db.orders.find? (fun o => o.id == cid) with
        | some o =>
          rw [hord] at heq
          cases heq
          exact h1
        | none =>
          rw [hord] at heq
          cases heq
          exact h1

lemma moneyOK_webhook (hs : List (String × String)) (db : DB) (ev : PayPalEvent)
    (h : MoneyOK db) : MoneyOK (webhookPOST hs db ev).1 := by
  unfold webhookPOST
  by_cases h1 : (ev.event_type == "PAYMENT.CAPTURE.COMPLETED") = true
  · rw [if_pos h1]
    cases heq : handlePaymentCaptured db ev.resource_id ev.custom_id with
    | ok db1 => exact moneyOK_captured db db1 ev.resource_id ev.custom_id heq h
    | error e => exact h
  · rw [if_neg h1]
    by_cases h2 : (ev.event_type == "PAYMENT.CAPTURE.DENIED") = true
    · rw [if_pos h2]
      cases heq : handlePaymentDenied db ev.custom_id with
      | ok db1 => exact moneyOK_denied db db1 ev.custom_id heq h
      | error e => exact h
    · rw [if_neg h2]
      by_cases h3 : (ev.event_type == "PAYMENT.CAPTURE.REFUNDED") = true
      · rw [if_pos h3]
        cases heq : handlePaymentRefunded db ev.custom_id with
        | ok db1 => exact moneyOK_refunded db db1 ev.custom_id heq h
        | error e => exact h
      · rw [if_neg h3]
        exact h

lemma moneyOK_sweepCancelOne (db db' : DB) (s : SweepSnapshot)
    (heq : sweepCancelOne db s = .ok db') (h : MoneyOK db) : MoneyOK db' := by
  unfold sweepCancelOne at heq
  cases hupd : updateOrderById db s.order.id (fun o => { o with status := .CANCELLED }) with
  | error e =>
    rw [hupd] at heq
    exact Except.noConfusion heq
  | ok db1 =>
    rw [hupd] at heq
    have h1 : MoneyOK db1 := moneyOK_updateOrderById db s.order.id _ db1 hupd (fun o hm => hm) h
    exact moneyOK_updateCustomerById _ s.order.customerId _ db' heq h1

lemma moneyOK_sweepLoop (snaps : List SweepSnapshot) : ∀ db : DB,
    MoneyOK db → MoneyOK (sweepLoop db snaps) := by
  induction snaps with
  | nil => intro db h; exact h
  | cons s rest ih =>
    intro db h
    unfold sweepLoop
    cases heq : sweepCancelOne db s with
    | ok db1 => exact ih db1 (moneyOK_sweepCancelOne db db1 s heq h)
    | error e => exact h

lemma moneyOK_updateOrderStatus (db db' : DB) (oid : String) (st : OrderStatus)
    (note : Option String) (actor : String)
    (heq : updateOrderStatus db oid st note actor = some db') (h : MoneyOK db) : MoneyOK db' := by
  cases hfind : db.orders.find? (fun x => x.id == oid) with
  | none =>
    simp only [updateOrderStatus, hfind] at heq
    exact Option.noConfusion heq
  | some o =>
    simp only [updateOrderStatus, hfind] at heq
    have hmap : ∀ x ∈ db.orders.map (fun od =>
        if od.id == oid then { od with status := st } else od), moneyReconciles x := by
      apply moneyOK_map db.orders _ (fun od hm => ?_) h
      by_cases hh : (od.id == oid) = true
      · rw [if_pos hh]; exact hm
      · rw [if_neg hh]; exact hm
    by_cases hc : ((st == OrderStatus.CANCELLED || st == OrderStatus.REJECTED) &&
        !(o.paymentStatus == PaymentStatus.REFUNDED)) = true
    · rw [if_pos hc] at heq
      cases heq
      exact hmap
    · rw [if_neg hc] at heq
      cases heq
      exact hmap

lemma moneyOK_patch (db : DB) (s : Option Session) (oid : String) (body : PatchBody)
    (h : MoneyOK db) : MoneyOK (patchOrder db s oid body).1 := by
  cases s with
  | none => exact h
  | some sess =>
    simp only [patchOrder]
    by_cases hcc : (body.status == some "CANCELLED" && isBlankNote body.note) = true
    · rw [if_pos hcc]
      cases hfind : db.orders.find? (fun o => o.id == oid) with
      | none =>
        simp only [hfind]
        exact h
      | some o =>
        simp only [hfind]
        by_cases hbne : (o.customerId != sess.userId) = true
        · rw [if_pos hbne]
          exact h
        · rw [if_neg hbne]
          by_cases hgate : (!(o.status == OrderStatus.PENDING || o.status == OrderStatus.ACCEPTED)) = true
          · rw [if_pos hgate]
            exact h
          · rw [if_neg hgate]
            cases heq : updateOrderStatus db oid .CANCELLED (some "Cancelled by customer")
                (if sess.userId.isEmpty then "CUSTOMER" else sess.userId) with
            | some db1 =>
              simp only [heq]
              exact moneyOK_updateOrderStatus db db1 oid _ _ _ heq h
            | none =>
              simp only [heq]
              exact h
    · rw [if_neg hcc]
      by_cases hstaff : (!(match sess.role with
          | some r => staffRoles.contains r
          | none => false)) = true
      · rw [if_pos hstaff]
        exact h
      · rw [if_neg hstaff]
        cases hfind : db.orders.find? (fun o => o.id == oid) with
        | none =>
          simp only [hfind]
          exact h
        | some o =>
          simp only [hfind]
          cases hbs : body.status with
          | none => exact h
          | some sstr =>
            cases hps : parseOrderStatus sstr with
            | none =>
              simp only [hps]
              exact h
            | some st =>
              simp only [hps]
              cases heq : updateOrderStatus db oid st body.note
                  (if sess.userId.isEmpty then "SYSTEM" else sess.userId) with
              | some db1 =>
                simp only [heq]
                exact moneyOK_updateOrderStatus db db1 oid _ _ _ heq h
              | none =>
                simp only [heq]
                exact h

lemma moneyOK_applyOp (db : DB) (op : Op) (h : MoneyOK db) : MoneyOK (applyOp db op) := by
  cases op with
  | webhook hs ev => exact moneyOK_webhook hs db ev h
  | patch s oid body => exact moneyOK_patch db s oid body h
  | sweep now => exact moneyOK_sweepLoop (sweepSelect db now) db h

/-- C8: the monetary breakdown reconciles: the checkout-built order satisfies
totalAmount = subtotal + taxAmount + serviceFee + tipAmount + deliveryFee -
discountAmount (discount is fixed at 0), and every state-mutating entry point of the
core preserves the invariant for every order, so it holds after creation and after every
subsequent read. -/
theorem total_amount_reconciles :
    (∀ (id num cust : String) (createdAt sub tax fee del tip : Int),
      moneyReconciles (mkCheckoutOrder id num cust createdAt sub tax fee del tip)) ∧
    (∀ (db : DB) (op : Op), MoneyOK db → MoneyOK (applyOp db op)) := by
  constructor
  · intro id num cust createdAt sub tax fee del tip
    show checkoutTotalAmount sub tax fee del tip = sub + tax + fee + tip + del - 0
    unfold checkoutTotalAmount
    omega
  · exact fun db op h => moneyOK_applyOp db op h

/-- C8 witness: the checkout order of Scenario A (in cents: 2500 + 250 + 200 + 300 +
500 - 0 = 3750) reconciles, and the invariant is preserved across a concrete capture
delivery. -/
theorem total_amount_reconciles_witness :
    moneyReconciles (mkCheckoutOrder "o9" "N9" "c9" 0 2500 250 200 500 300) ∧
    MoneyOK (applyOp wDB (Op.webhook [] wEvCap)) :=
  ⟨total_amount_reconciles.1 "o9" "N9" "c9" 0 2500 250 200 500 300,
   total_amount_reconciles.2 wDB (Op.webhook [] wEvCap) (by decide)⟩

lemma totalRestored_cons (s : SweepSnapshot) (snaps : List SweepSnapshot) (mid : String) :
    totalRestored (s :: snaps) mid = restoredQty s.items mid + totalRestored snaps mid := by
  simp [totalRestored]

lemma sweptCount_cons (s : SweepSnapshot) (snaps : List SweepSnapshot) (cid : String) :
    sweptCount (s :: snaps) cid =
      (if s.order.customerId == cid then (1 : Int) else 0) + sweptCount snaps cid := by
  unfold sweptCount
  rw [List.filter_cons]
  split
  · simp only [List.length_cons]
    push_cast
    ring
  · simp

lemma sweptSpent_cons (s : SweepSnapshot) (snaps : List SweepSnapshot) (cid : String) :
    sweptSpent (s :: snaps) cid =
      (if s.order.customerId == cid then s.order.totalAmount else 0) + sweptSpent snaps cid := by
  unfold sweptSpent
  rw [List.filter_cons]
  split
  · simp
  · simp

lemma customer_decr_zero (c : Customer) :
    { c with totalOrders := c.totalOrders - (0 : Int), totalSpent := c.totalSpent - (0 : Int) } = c := by
  cases c with
  | mk i a b => simp

/-- One committed per-order sweeper transaction, in solved form. -/
lemma sweepCancelOne_spec (db : DB) (s : SweepSnapshot)
    (hanyo : db.orders.any (fun o => o.id == s.order.id) = true)
    (hccust : db.customers.any (fun c => c.id == s.order.customerId) = true) :
    sweepCancelOne db s = .ok
      { orders := db.orders.map (fun o =>
          if o.id == s.order.id then { o with status := OrderStatus.CANCELLED } else o),
        orderItems := db.orderItems,
        menuItems := db.menuItems.map (fun m =>
          { m with stockQuantity := m.stockQuantity.map (fun q =>
              q + restoredQty s.items m.id) }),
        customers := db.customers.map (fun c =>
          if c.id == s.order.customerId then
            { c with totalOrders := c.totalOrders - 1,
                     totalSpent := c.totalSpent - s.order.totalAmount }
          else c),
        history := db.history ++
          [{ orderId := s.order.id, status := OrderStatus.CANCELLED, note := some sweepNote,
             createdBy := "SYSTEM" }] } := by
  simp only [sweepCancelOne, updateOrderById, hanyo, if_true, updateCustomerById,
    restoreInventory_eq, hccust]

/-- The sweeper's per-order loop, when every selected order and its customer row exist,
in solved form: each selected order row is cancelled, one history row per selected order
is appended in order, each menu item gains the summed restored quantity, and each
customer loses one totalOrders and the order total per owned selected order. -/
lemma sweepLoop_spec (snaps : List SweepSnapshot) : ∀ db : DB,
    (∀ s ∈ snaps, db.orders.any (fun o => o.id == s.order.id) = true) →
    (∀ s ∈ snaps, db.customers.any (fun c => c.id == s.order.customerId) = true) →
    sweepLoop db snaps =
      { orders := db.orders.map (fun o =>
          if snaps.any (fun s => o.id == s.order.id) then
            { o with status := OrderStatus.CANCELLED } else o),
        orderItems := db.orderItems,
        menuItems := db.menuItems.map (fun m =>
          { m with stockQuantity := m.stockQuantity.map (fun q =>
              q + totalRestored snaps m.id) }),
        customers := db.customers.map (fun c =>
          { c with totalOrders := c.totalOrders - sweptCount snaps c.id,
                   totalSpent := c.totalSpent - sweptSpent snaps c.id }),
        history := db.history ++ snaps.map (fun s =>
          { orderId := s.order.id, status := OrderStatus.CANCELLED, note := some sweepNote,
            createdBy := "SYSTEM" }) } := by
  induction snaps with
  | nil =>
    intro db _ _
    have horders : db.orders.map (fun o =>
        if ([] : List SweepSnapshot).any (fun s => o.id == s.order.id) then
          { o with status := OrderStatus.CANCELLED } else o) = db.orders := by
      calc db.orders.map (fun o =>
            if ([] : List SweepSnapshot).any (fun s => o.id == s.order.id) then
              { o with status := OrderStatus.CANCELLED } else o)
          = db.orders.map id := List.map_congr_left (fun o _ => by simp)
        _ = db.orders := List.map_id db.orders
    have hmenu : db.menuItems.map (fun m =>
        { m with stockQuantity := m.stockQuantity.map (fun q =>
            q + totalRestored [] m.id) }) = db.menuItems := by
      calc db.menuItems.map (fun m =>
            { m with stockQuantity := m.stockQuantity.map (fun q => q + totalRestored [] m.id) })
          = db.menuItems.map id := List.map_congr_left (fun m _ => menuItem_incr_zero m)
        _ = db.menuItems := List.map_id db.menuItems
    have hcust : db.customers.map (fun c =>
        { c with totalOrders := c.totalOrders - sweptCount [] c.id,
                 totalSpent := c.totalSpent - sweptSpent [] c.id }) = db.customers := by
      calc db.customers.map (fun c =>
            { c with totalOrders := c.totalOrders - sweptCount [] c.id,
                     totalSpent := c.totalSpent - sweptSpent [] c.id })
          = db.customers.map id := List.map_congr_left (fun c _ => customer_decr_zero c)
        _ = db.customers := List.map_id db.customers
    rw [show sweepLoop db [] = db from rfl, horders, hmenu, hcust]
    simp only [List.map_nil, List.append_nil]
  | cons s rest ih =>
    intro db ho hc
    have hanyo : db.orders.any (fun o => o.id == s.order.id) = true :=
      ho s (List.mem_cons_self s rest)
    have hccust : db.customers.any (fun c => c.id == s.order.customerId) = true :=
      hc s (List.mem_cons_self s rest)
    have hstep := sweepCancelOne_spec db s hanyo hccust
    have hloop : sweepLoop db (s :: rest) =
        sweepLoop
          { orders := db.orders.map (fun o =>
              if o.id == s.order.id then { o with status := OrderStatus.CANCELLED } else o),
            orderItems := db.orderItems,
            menuItems := db.menuItems.map (fun m =>
              { m with stockQuantity := m.stockQuantity.map (fun q =>
                  q + restoredQty s.items m.id) }),
            customers := db.customers.map (fun c =>
              if c.id == s.order.customerId then
                { c with totalOrders := c.totalOrders - 1,
                         totalSpent := c.totalSpent - s.order.totalAmount }
              else c),
            history := db.history ++
              [{ orderId := s.order.id, status := OrderStatus.CANCELLED, note := some sweepNote,
                 createdBy := "SYSTEM" }] }
          rest := by
      simp only [sweepLoop, hstep]
    rw [hloop, ih]
    · congr 1
      · rw [List.map_map]
        apply List.map_congr_left
        intro o _
        by_cases h1 : (o.id == s.order.id) = true
        · simp [Function.comp, h1, List.any_cons]
        · simp [Function.comp, h1, List.any_cons]
      · rw [List.map_map]
        apply List.map_congr_left
        intro m _
        simp [Function.comp, Option.map_map, totalRestored_cons, Int.add_assoc]
      · rw [List.map_map]
        apply List.map_congr_left
        intro c _
        by_cases h1 : (c.id == s.order.customerId) = true
        · have h2 : (s.order.customerId == c.id) = true :=
            beq_iff_eq.mpr (beq_iff_eq.mp h1).symm
          simp only [Function.comp, h1, if_true, sweptCount_cons, sweptSpent_cons, h2]
          simp [sub_sub]
        · have hne : c.id ≠ s.order.customerId := fun hh => h1 (beq_iff_eq.mpr hh)
          have h2 : (s.order.customerId == c.id) = false :=
            beq_eq_false_iff_ne.mpr (fun hh2 => hne hh2.symm)
          simp only [Function.comp, h1, Bool.false_eq_true, if_false, sweptCount_cons,
            sweptSpent_cons, h2]
          simp
      · simp
    · intro t ht
      rw [any_map_of_pres db.orders
        (fun o => if o.id == s.order.id then { o with status := OrderStatus.CANCELLED } else o)
        (fun o => o.id == t.order.id)
        (fun o => by by_cases hh : (o.id == s.order.id) = true <;> simp [hh])]
      exact ho t (List.mem_cons_of_mem s ht)
    · intro t ht
      rw [any_map_of_pres db.customers
        (fun c => if c.id == s.order.customerId then
          { c with totalOrders := c.totalOrders - 1,
                   totalSpent := c.totalSpent - s.order.totalAmount }
        else c)
        (fun c => c.id == t.order.customerId)
        (fun c => by by_cases hh : (c.id == s.order.customerId) = true <;> simp [hh])]
      exact hc t (List.mem_cons_of_mem s ht)

/-- C6: a sweeper run selects exactly the orders that are PENDING with PENDING payment
and more than 15 minutes old; it cancels exactly the selected order rows (all others
untouched), appends one history row per selected order with actor SYSTEM and the
payment-window note, increments each menu item's stock by the summed quantities of the
selected orders' tracked line items, and decrements each customer's totalOrders by one
and totalSpent by the order total per owned selected order. -/
theorem sweeper_run_correct (db : DB) (now : Int)
    (hcust : ∀ s ∈ sweepSelect db now,
      db.customers.any (fun c => c.id == s.order.customerId) = true) :
    ((sweepSelect db now).map (fun s => s.order) = db.orders.filter (fun o => staleB o now)) ∧
    cleanupRun db now =
      { orders := db.orders.map (fun o =>
          if (sweepSelect db now).any (fun s => o.id == s.order.id) then
            { o with status := OrderStatus.CANCELLED } else o),
        orderItems := db.orderItems,
        menuItems := db.menuItems.map (fun m =>
          { m with stockQuantity := m.stockQuantity.map (fun q =>
              q + totalRestored (sweepSelect db now) m.id) }),
        customers := db.customers.map (fun c =>
          { c with totalOrders := c.totalOrders - sweptCount (sweepSelect db now) c.id,
                   totalSpent := c.totalSpent - sweptSpent (sweepSelect db now) c.id }),
        history := db.history ++ (sweepSelect db now).map (fun s =>
          { orderId := s.order.id, status := OrderStatus.CANCELLED, note := some sweepNote,
            createdBy := "SYSTEM" }) } := by
  constructor
  · unfold sweepSelect
    rw [List.map_map]
    calc (db.orders.filter (fun o => staleB o now)).map
          ((fun s : SweepSnapshot => s.order) ∘ (fun o => { order := o, items := joinItems db o.id }))
        = (db.orders.filter (fun o => staleB o now)).map id :=
          List.map_congr_left (fun o _ => rfl)
      _ = db.orders.filter (fun o => staleB o now) :=
          List.map_id _
  · have horder : ∀ s ∈ sweepSelect db now,
        db.orders.any (fun o => o.id == s.order.id) = true := by
      intro s hs
      unfold sweepSelect at hs
      rcases List.mem_map.mp hs with ⟨o, hof, rfl⟩
      have hom : o ∈ db.orders := List.mem_of_mem_filter hof
      exact List.any_eq_true.mpr ⟨o, hom, by simp⟩
    exact sweepLoop_spec (sweepSelect db now) db horder hcust

/-- C6 witness: the sweeper run evaluated on the concrete database at a time 1000
seconds after the order was created. -/
theorem sweeper_run_correct_witness :
    ((sweepSelect wDB 1000000).map (fun s => s.order) =
      wDB.orders.filter (fun o => staleB o 1000000)) ∧
    cleanupRun wDB 1000000 =
      { orders := wDB.orders.map (fun o =>
          if (sweepSelect wDB 1000000).any (fun s => o.id == s.order.id) then
            { o with status := OrderStatus.CANCELLED } else o),
        orderItems := wDB.orderItems,
        menuItems := wDB.menuItems.map (fun m =>
          { m with stockQuantity := m.stockQuantity.map (fun q =>
              q + totalRestored (sweepSelect wDB 1000000) m.id) }),
        customers := wDB.customers.map (fun c =>
          { c with totalOrders := c.totalOrders - sweptCount (sweepSelect wDB 1000000) c.id,
                   totalSpent := c.totalSpent - sweptSpent (sweepSelect wDB 1000000) c.id }),
        history := wDB.history ++ (sweepSelect wDB 1000000).map (fun s =>
          { orderId := s.order.id, status := OrderStatus.CANCELLED, note := some sweepNote,
            createdBy := "SYSTEM" }) } :=
  sweeper_run_correct wDB 1000000 (by decide)

end Rest
